import Mathlib

/-!
Shallow embedding of the `runcloud` provisioning CLI.

The JavaScript sources are modelled as pure Lean functions:

* `resolveConfig` / `validate` embed `ConfigManager._resolveConfig` and
  `ConfigManager._validate` (src/config/constants.js, second document);
* `RunCloudClient.*Req` embed the request construction of the API client
  (src/unnamed/part_000);
* `ProvisioningService.run` embeds the orchestrator
  (src/services/ProvisioningService.js, second document), producing the
  ordered trace of observable events (requests, the fixed sleep, log
  messages) given an oracle for the remote responses;
* `generateDbPass` embeds the database password generator (src/readme.md,
  helpers document), parameterised by the stream of random draws;
* `findNextPort` / `proxyMain` embed the reverse-proxy registrar
  (src/unnamed/part_001) over an explicit directory state.

JavaScript truthiness on the values that actually flow through the code
(strings, numbers, `undefined`) is made explicit by the `js*` helpers.
-/

/-! ### JavaScript value helpers -/

/-- Truthiness of an optional string: `undefined` and `""` are falsy. -/
def jsFalsyStr : Option String → Bool
  | none => true
  | some s => s == ""

/-- `a || b` for strings where `b` is a (truthy) final value:
`undefined` and `""` fall through. -/
def jsSel (a : Option String) (b : String) : String :=
  match a with
  | some s => if s == "" then b else s
  | none => b

/-- `a || b` for optional numbers: `undefined` and `0` fall through. -/
def jsOrNat (a : Option Nat) (b : Option Nat) : Option Nat :=
  match a with
  | some n => if n == 0 then b else some n
  | none => b

/-- Truthiness of an optional number: `undefined` and `0` are falsy. -/
def jsTruthyNat : Option Nat → Bool
  | none => false
  | some n => n != 0

/-- Leading decimal digits of a character list. -/
def takeDigits : List Char → List Char
  | [] => []
  | c :: cs => if c.isDigit then c :: takeDigits cs else []

/-- Value of a list of decimal digits. -/
def digitsToNat (ds : List Char) : Nat :=
  ds.foldl (fun n c => n * 10 + (c.toNat - 48)) 0

/-- `parseInt(s)` restricted to the cases the tool meets: the value of the
leading digits of `s`; `none` when there is no leading digit (JavaScript
would yield `NaN`, which is falsy exactly where this model tests the
result, so `none` is observationally faithful). -/
def parseIntJs (s : String) : Option Nat :=
  match takeDigits s.toList with
  | [] => none
  | ds => some (digitsToNat ds)

/-- Rendering of an optional string inside a template literal:
`undefined` prints as the string "undefined". -/
def jsStr (o : Option String) : String :=
  match o with
  | some s => s
  | none => "undefined"

/-! ### Constants (src/config/constants.js, first document) -/

def API_BASE : String := "https://manage.runcloud.io/api/v3"

def STACKS : List (String × String) :=
  [("nginx", "nativenginx"), ("apache", "hybrid")]

def PHP_VERSIONS : List (String × String) :=
  [("7.4", "php74rc"), ("8.0", "php80rc"), ("8.1", "php81rc"),
   ("8.2", "php82rc"), ("8.3", "php83rc"), ("8.4", "php84rc")]

def DEFAULT_USER : String := "admin"
def DEFAULT_INSTALL_HUB : Bool := true
def DEFAULT_HUB_TYPE : String := "native"
def DEFAULT_REDIS_OBJ : Bool := false
def DEFAULT_INSTALL_SSL : Bool := false
def DEFAULT_UNRESTRICTED_PHP : Bool := false

/-- Application types (yargs `choices` restricts `--type` to these two). -/
inductive AppType
  | wordpress
  | custom
deriving DecidableEq, Repr

/-! ### CLI arguments and environment (ConfigManager inputs) -/

/-- Parsed CLI arguments, after yargs validation (types and `choices`
already enforced, `domain` and `app` present). -/
structure Argv where
  type : AppType
  domain : String
  app : String
  user : Option String
  password : Option String
  email : Option String
  owner : Option Nat
  php : String
  stack : String
  hub : Option Bool
  hubType : Option String
  redisObj : Option Bool
  ssl : Option Bool
  unrestricted : Option Bool
deriving DecidableEq, Repr

/-- The environment variables the tool reads; `none` means unset. -/
structure Env where
  rcServerId : Option String
  rcApiKey : Option String
  rcDefaultUser : Option String
  rcAdminEmail : Option String
  rcAdminUser : Option String
  rcAdminPassword : Option String
  rcInstallHub : Option String
  rcInstallSsl : Option String
  rcUnrestrictedPhp : Option String
  rcHubType : Option String
  rcHubRedisObj : Option String
deriving DecidableEq, Repr

/-- Sub-configuration for the RunCloud Hub cache plugin. -/
structure HubConfig where
  type : String
  redisObject : Bool
deriving DecidableEq, Repr

/-- The resolved runtime configuration (`ConfigManager._resolveConfig`
return value). -/
structure Config where
  serverId : Option String
  apiKey : Option String
  appType : AppType
  domainName : String
  appName : String
  ownerId : Option Nat
  adminEmail : String
  adminUser : String
  adminPassword : String
  isAutoPassword : Bool
  phpVersion : Option String
  stack : Option String
  stackLabel : String
  installHub : Bool
  installSsl : Bool
  unrestrictedPhp : Bool
  hub : HubConfig
deriving DecidableEq, Repr

/-- `installHub` resolution: CLI boolean, else ENV compared to the literal
string "true", else default. -/
def resolveInstallHub (argv : Argv) (env : Env) : Bool :=
  match argv.hub with
  | some b => b
  | none =>
    match env.rcInstallHub with
    | some s => s == "true"
    | none => DEFAULT_INSTALL_HUB

/-- `installSsl` resolution. -/
def resolveInstallSsl (argv : Argv) (env : Env) : Bool :=
  match argv.ssl with
  | some b => b
  | none =>
    match env.rcInstallSsl with
    | some s => s == "true"
    | none => DEFAULT_INSTALL_SSL

/-- `unrestrictedPhp` resolution. -/
def resolveUnrestrictedPhp (argv : Argv) (env : Env) : Bool :=
  match argv.unrestricted with
  | some b => b
  | none =>
    match env.rcUnrestrictedPhp with
    | some s => s == "true"
    | none => DEFAULT_UNRESTRICTED_PHP

/-- `redisObj` resolution; note the source guards the ENV branch with a
truthiness test (`if (this.env.RC_HUB_REDIS_OBJ)`), so an empty-string
value keeps the initial `false`. -/
def resolveRedisObj (argv : Argv) (env : Env) : Bool :=
  match argv.redisObj with
  | some b => b
  | none =>
    match env.rcHubRedisObj with
    | some s => if s == "" then false else s == "true"
    | none => false

/-- `ConfigManager._resolveConfig`; `genPass` is the value
`generateStrongPass()` would return when the admin password has to be
generated. -/
def resolveConfig (argv : Argv) (env : Env) (genPass : String) : Config :=
  let adminUser := jsSel argv.user (jsSel env.rcAdminUser DEFAULT_USER)
  let adminPassword := jsSel argv.password (jsSel env.rcAdminPassword genPass)
  let isAutoPassword := jsFalsyStr argv.password && jsFalsyStr env.rcAdminPassword
  let hubType := jsSel argv.hubType (jsSel env.rcHubType DEFAULT_HUB_TYPE)
  { serverId := env.rcServerId
    apiKey := env.rcApiKey
    appType := argv.type
    domainName := argv.domain
    appName := argv.app
    ownerId := jsOrNat argv.owner
      (match env.rcDefaultUser with
       | some s => if s == "" then none else parseIntJs s
       | none => none)
    adminEmail := jsSel argv.email (jsSel env.rcAdminEmail ("admin@" ++ argv.domain))
    adminUser := adminUser
    adminPassword := adminPassword
    isAutoPassword := isAutoPassword
    phpVersion := PHP_VERSIONS.lookup argv.php
    stack := STACKS.lookup argv.stack
    stackLabel := argv.stack
    installHub := resolveInstallHub argv env
    installSsl := resolveInstallSsl argv env
    unrestrictedPhp := resolveUnrestrictedPhp argv env
    hub := { type := hubType
             redisObject := if hubType == "redis" then resolveRedisObj argv env else false } }

/-- `ConfigManager._validate`: `some msg` means the process prints `msg`
as an error and exits with status 1 before any service is constructed. -/
def validate (c : Config) : Option String :=
  let missing := (if jsFalsyStr c.serverId then ["serverId"] else []) ++
                 (if jsFalsyStr c.apiKey then ["apiKey"] else [])
  if missing.length > 0 then
    some ("Missing required config: " ++ String.intercalate ", " missing ++ ".")
  else if c.appType == AppType.custom && !jsTruthyNat c.ownerId then
    some "System User ID (Owner) is required for Custom Apps."
  else
    none

/-! ### API client (src/unnamed/part_000, `RunCloudClient`) -/

/-- Payload of `createWordPress` (built by `_prepareWpData`). -/
structure WpPayload where
  name : String
  domainName : String
  siteTitle : String
  adminUsername : String
  adminEmail : String
  password : String
  dbName : String
  dbUser : String
  dbPassword : String
  dbPrefix : String
  phpVersion : Option String
  stack : Option String
  stackMode : String
  user : Option Nat
deriving DecidableEq, Repr

/-- Payload of `createCustomWebApp` (built by `_provisionCustomApp`). -/
structure CustomAppPayload where
  name : String
  domainName : String
  user : Option Nat
  stack : String
  disableFunctions : String
  allowUrlFopen : Bool
  phpVersion : Option String
  stackMode : String
deriving DecidableEq, Repr

/-- Payload of `installHub` (fixed cache sizes plus the hub config). -/
structure HubApiPayload where
  cacheType : String
  redisObjectCache : Bool
  cacheFolderSize : Nat
  cacheValidMinute : Nat
deriving DecidableEq, Repr

/-- Fixed payload of `installSsl`. -/
structure SslPayload where
  advancedSSL : Bool
  autoSSL : Bool
  provider : String
  enableHttp : Bool
  enableHsts : Bool
  authorizationMethod : String
  environment : String
deriving DecidableEq, Repr

/-- Payload of `updateFpmSettings` as the orchestrator uses it. -/
structure FpmPayload where
  disableFunctions : String
deriving DecidableEq, Repr

/-- HTTP methods used by the client. -/
inductive Method
  | get
  | post
  | patch
deriving DecidableEq, Repr

/-- Request bodies, one constructor per remote operation. -/
inductive Body
  | empty
  | wordpress (p : WpPayload)
  | custom (p : CustomAppPayload)
  | hub (p : HubApiPayload)
  | ssl (p : SslPayload)
  | fpm (p : FpmPayload)
deriving DecidableEq, Repr

/-- An outgoing HTTP request (path relative to `API_BASE`). -/
structure Request where
  path : String
  method : Method
  body : Body
deriving DecidableEq, Repr

/-- The API client: bearer token and target server, as stored by the
constructor.  The orchestrator passes the resolved config values, which
are optional strings; a missing value is interpolated into paths as the
literal "undefined", as a JavaScript template literal would do. -/
structure RunCloudClient where
  apiKey : Option String
  serverId : Option String
deriving DecidableEq, Repr

/-- The `/servers/{server}/webapps` path root. -/
def RunCloudClient.webappsPath (c : RunCloudClient) : String :=
  "/servers/" ++ jsStr c.serverId ++ "/webapps"

/-- `createWordPress`: POST `/servers/{server}/webapps/wordpress`. -/
def RunCloudClient.createWordPressReq (c : RunCloudClient) (p : WpPayload) : Request :=
  { path := c.webappsPath ++ "/wordpress"
    method := Method.post
    body := Body.wordpress p }

/-- Modelled from the spec: `createCustomWebApp`, the API client's
create-custom-app operation.  The client source under `src/` predates the
custom-app feature and lacks this method; the spec fixes its contract as
"create custom app (path `/servers/{server}/webapps`, POST, payload with
forced stack identifier, disabled-function-list cleared, URL-fopen
enabled)" — the payload itself is built by the caller
`_provisionCustomApp`, which is in the sources. -/
def RunCloudClient.createCustomWebAppReq (c : RunCloudClient) (p : CustomAppPayload) : Request :=
  { path := c.webappsPath
    method := Method.post
    body := Body.custom p }

/-- `installHub`: POST `/servers/{server}/webapps/{app}/runcloudhub` with
fixed `cacheFolderSize = 50` and `cacheValidMinute = 480`. -/
def RunCloudClient.installHubReq (c : RunCloudClient) (webAppId : Nat) (hubConfig : HubConfig) : Request :=
  { path := c.webappsPath ++ "/" ++ toString webAppId ++ "/runcloudhub"
    method := Method.post
    body := Body.hub { cacheType := hubConfig.type
                       redisObjectCache := hubConfig.redisObject
                       cacheFolderSize := 50
                       cacheValidMinute := 480 } }

/-- `getDomains`: GET `/servers/{server}/webapps/{app}/domains`. -/
def RunCloudClient.getDomainsReq (c : RunCloudClient) (webAppId : Nat) : Request :=
  { path := c.webappsPath ++ "/" ++ toString webAppId ++ "/domains"
    method := Method.get
    body := Body.empty }

/-- `installSsl`: POST `/servers/{server}/webapps/{app}/domains/{domain}/ssl`
with the fixed Lets-Encrypt policy payload. -/
def RunCloudClient.installSslReq (c : RunCloudClient) (webAppId : Nat) (domainId : Nat) : Request :=
  { path := c.webappsPath ++ "/" ++ toString webAppId ++ "/domains/" ++ toString domainId ++ "/ssl"
    method := Method.post
    body := Body.ssl { advancedSSL := true
                       autoSSL := false
                       provider := "letsencrypt"
                       enableHttp := false
                       enableHsts := false
                       authorizationMethod := "http-01"
                       environment := "live" } }

/-- `updateFpmSettings`: PATCH `/servers/{server}/webapps/{app}/settings/fpmnginx`. -/
def RunCloudClient.updateFpmSettingsReq (c : RunCloudClient) (webAppId : Nat) (p : FpmPayload) : Request :=
  { path := c.webappsPath ++ "/" ++ toString webAppId ++ "/settings/fpmnginx"
    method := Method.patch
    body := Body.fpm p }

/-! ### Orchestrator (src/services/ProvisioningService.js, second document) -/

/-- A domain record as returned by the domain-list endpoint. -/
structure Domain where
  id : Nat
  name : String
deriving DecidableEq, Repr

/-- The domain-list response (`domainList.data`). -/
structure DomainList where
  data : List Domain
deriving DecidableEq, Repr

/-- Oracle for the remote side: the outcome of each call the run can
make.  `create` yields the new application identifier (`result.id`). -/
structure Responses where
  create : Except String Nat
  fpm : Except String Unit
  hub : Except String Unit
  domains : Except String DomainList
  ssl : Except String Unit
deriving Repr

/-- The values the random generators produce during `_prepareWpData`. -/
structure GenData where
  dbSuffix : String
  dbPass : String
deriving DecidableEq, Repr

/-- Observable events of one run, in order. -/
inductive Event
  | header
  | initialSummary
  | logStep
  | logSuccess
  | logInfo
  | logWarn (msg : String)
  | logError (msg : String)
  | request (r : Request)
  | sleep (ms : Nat)
  | finalSummary
deriving DecidableEq, Repr

/-- The WordPress payload `_prepareWpData` builds from the config and the
generated credentials. -/
def wpPayloadOf (cfg : Config) (gen : GenData) : WpPayload :=
  { name := cfg.appName
    domainName := cfg.domainName
    siteTitle := "Site - " ++ cfg.domainName
    adminUsername := cfg.adminUser
    adminEmail := cfg.adminEmail
    password := cfg.adminPassword
    dbName := "db_" ++ gen.dbSuffix
    dbUser := "u_" ++ gen.dbSuffix
    dbPassword := gen.dbPass
    dbPrefix := "wp_"
    phpVersion := cfg.phpVersion
    stack := cfg.stack
    stackMode := "production"
    user := if jsTruthyNat cfg.ownerId then cfg.ownerId else none }

/-- The custom-app payload `_provisionCustomApp` builds. -/
def customPayloadOf (cfg : Config) : CustomAppPayload :=
  { name := cfg.appName
    domainName := cfg.domainName
    user := cfg.ownerId
    stack := "customnginx"
    disableFunctions := ""
    allowUrlFopen := true
    phpVersion := cfg.phpVersion
    stackMode := "production" }

/-- `_unlockPhpFunctions`: the PATCH request, then success or a caught
warning. -/
def unlockPhpFunctionsEvents (client : RunCloudClient) (o : Responses) (webAppId : Nat) : List Event :=
  [Event.logStep, Event.request (client.updateFpmSettingsReq webAppId { disableFunctions := "" })] ++
  match o.fpm with
  | Except.ok _ => [Event.logSuccess]
  | Except.error e => [Event.logWarn ("Failed to update FPM settings: " ++ e)]

/-- `_installHub`: the POST request, then success or a caught warning plus
the manual-install hint. -/
def installHubEvents (client : RunCloudClient) (cfg : Config) (o : Responses) (webAppId : Nat) : List Event :=
  [Event.logStep, Event.request (client.installHubReq webAppId cfg.hub)] ++
  match o.hub with
  | Except.ok _ => [Event.logSuccess]
  | Except.error e => [Event.logWarn ("Hub Installation Failed: " ++ e), Event.logInfo]

/-- `_installSsl`: fetch the domain list, resolve the configured domain by
exact name equality, then request the certificate; every failure inside
the step (fetch failure, lookup miss, request failure) is caught and
logged as a warning. -/
def installSslEvents (client : RunCloudClient) (cfg : Config) (o : Responses) (webAppId : Nat) : List Event :=
  [Event.logStep, Event.request (client.getDomainsReq webAppId)] ++
  match o.domains with
  | Except.error e => [Event.logWarn ("SSL Failed: " ++ e), Event.logInfo]
  | Except.ok domainList =>
    match domainList.data.find? (fun d => d.name == cfg.domainName) with
    | none => [Event.logWarn "SSL Failed: Domain ID lookup failed.", Event.logInfo]
    | some domainObj =>
      [Event.request (client.installSslReq webAppId domainObj.id)] ++
      match o.ssl with
      | Except.ok _ => [Event.logSuccess]
      | Except.error e => [Event.logWarn ("SSL Failed: " ++ e), Event.logInfo]

/-- The client the service constructor builds from the configuration. -/
def clientOf (cfg : Config) : RunCloudClient :=
  { apiKey := cfg.apiKey, serverId := cfg.serverId }

/-- `ProvisioningService.run`: the ordered event trace and the outcome.
The `Except.ok` value carries the `webAppId` the run obtained from the
creation response and used for every subsequent call; `Except.error`
reproduces the only uncaught failure, a failed creation call. -/
def ProvisioningService.run (cfg : Config) (gen : GenData) (o : Responses) :
    List Event × Except String Nat :=
  let client : RunCloudClient := clientOf cfg
  let isWp := cfg.appType == AppType.wordpress
  let createEvents : List Event :=
    if cfg.appType == AppType.custom then
      [Event.logStep, Event.request (client.createCustomWebAppReq (customPayloadOf cfg))]
    else
      [Event.logStep, Event.request (client.createWordPressReq (wpPayloadOf cfg gen))]
  let pre := [Event.header, Event.initialSummary] ++ createEvents
  match o.create with
  | Except.error e => (pre, Except.error e)
  | Except.ok webAppId =>
    let needsWait := cfg.installSsl || (isWp && (cfg.installHub || cfg.unrestrictedPhp))
    let waitEvents : List Event := if needsWait then [Event.logStep, Event.sleep 5000] else []
    let wpEvents : List Event :=
      if isWp then
        (if cfg.unrestrictedPhp then unlockPhpFunctionsEvents client o webAppId else []) ++
        (if cfg.installHub then installHubEvents client cfg o webAppId else [Event.logInfo])
      else []
    let sslEvents : List Event :=
      if cfg.installSsl then installSslEvents client cfg o webAppId else []
    (pre ++ [Event.logSuccess] ++ waitEvents ++ wpEvents ++ sslEvents ++ [Event.finalSummary],
     Except.ok webAppId)

/-- The top-level CLI (readme entry document): build the configuration,
abort with exit status 1 on a validation error, otherwise run the
service; an uncaught run failure is trapped globally and exits 1. -/
def cliMain (argv : Argv) (env : Env) (genPass : String) (gen : GenData) (o : Responses) :
    List Event × Nat :=
  let cfg := resolveConfig argv env genPass
  match validate cfg with
  | some msg => ([Event.logError msg], 1)
  | none =>
    match ProvisioningService.run cfg gen o with
    | (es, Except.ok _) => (es, 0)
    | (es, Except.error e) => (es ++ [Event.logError e], 1)

/-- The requests of a trace, in order. -/
def requestsOf (es : List Event) : List Request :=
  es.filterMap (fun e => match e with | Event.request r => some r | _ => none)

/-- The trace restricted to requests and sleeps, in order. -/
def reqSleepEvents (es : List Event) : List Event :=
  es.filter (fun e => match e with | Event.request _ => true | Event.sleep _ => true | _ => false)

/-- Is a request the certificate-request operation? -/
def isSslRequest (r : Request) : Bool :=
  match r.body with | Body.ssl _ => true | _ => false

/-! ### Credential generators (src/readme.md, helpers document) -/

/-- The database-password character set (strictly alphanumeric). -/
def DB_CHARSET : List Char :=
  "abcdefghijklmnopqrstuvwxyzABCDEFGHIJKLMNOPQRSTUVWXYZ0123456789".toList

/-- `generateDbPass`: `len` characters drawn from `DB_CHARSET` by the
random stream `pick` (one draw per index, each draw below the charset
size, as `Math.floor(Math.random() * n)` guarantees), then the fixed
suffix "1A". -/
def generateDbPass (pick : Nat → Nat) (len : Nat) : String :=
  String.mk ((List.range len).map (fun i => DB_CHARSET.getD (pick i) ' ')) ++ "1A"

/-! ### Reverse-proxy registrar (src/unnamed/part_001) -/

def START_PORT : Nat := 3000

/-- The fixed fragment-name suffix the registrar filters on. -/
def CONF_SUFFIX : String := ".location.root.server.conf"

/-- Does the character list start with the given pattern? -/
def startsWithChars : List Char → List Char → Bool
  | [], _ => true
  | _ :: _, [] => false
  | p :: ps, c :: cs => p == c && startsWithChars ps cs

/-- Does the string end with the given suffix? -/
def endsWithStr (s suffix' : String) : Bool :=
  startsWithChars suffix'.toList.reverse s.toList.reverse

/-- The literal the port regex searches for. -/
def PORT_TARGET : List Char := "127.0.0.1:".toList

/-- First match of the regex `127\.0\.0\.1:(\d+)`: scan left to right for
the literal "127.0.0.1:" followed by at least one digit, and return the
value of the maximal digit run there. -/
def scanPort : List Char → Option Nat
  | [] => none
  | c :: cs =>
    if startsWithChars PORT_TARGET (c :: cs) then
      match takeDigits ((c :: cs).drop PORT_TARGET.length) with
      | [] => scanPort cs
      | ds => some (digitsToNat ds)
    else scanPort cs

/-- The fragment files matching the fixed naming convention. -/
def confFilesOf (files : List (String × String)) : List (String × String) :=
  files.filter (fun f => endsWithStr f.1 CONF_SUFFIX)

/-- The ports extracted from the matching fragment files (first
`127.0.0.1:<digits>` occurrence of each file, files without one skipped). -/
def usedPortsOf (files : List (String × String)) : List Nat :=
  (confFilesOf files).filterMap (fun f => scanPort f.2.toList)

/-- `findNextPort` over the directory state: `none` models an absent
`CONFIG_DIR`, `some files` its entries as (name, content) pairs. -/
def findNextPort (dir : Option (List (String × String))) : Nat :=
  match dir with
  | none => START_PORT
  | some files =>
    if (confFilesOf files).isEmpty then START_PORT
    else
      match usedPortsOf files with
      | [] => START_PORT
      | ports => ports.foldl max 0 + 1

/-- World state the registrar runs against. -/
structure ProxyWorld where
  isRoot : Bool
  dir : Option (List (String × String))
  nginxTestErr : Option String
  reloadErr : Option String
deriving DecidableEq, Repr

/-- Outcome of one registrar invocation. -/
structure ProxyResult where
  files : Option (List (String × String))
  exitCode : Nat
  errMsg : Option String
deriving DecidableEq, Repr

/-- The fragment content written for a chosen port (headers fixed, the
proxy target embeds the port). -/
def nginxConfigContent (port : Nat) : String :=
  "proxy_set_header X-Forwarded-For $proxy_add_x_forwarded_for;\n" ++
  "proxy_set_header X-Forwarded-Proto $scheme;\n" ++
  "proxy_set_header X-Real-IP $remote_addr;\n" ++
  "proxy_set_header Host $http_host;\n" ++
  "proxy_pass http://127.0.0.1:" ++ toString port ++ ";"

/-- Write (create or replace) a file in the directory listing. -/
def writeFileFs (files : List (String × String)) (name content : String) :
    List (String × String) :=
  files.filter (fun f => f.1 != name) ++ [(name, content)]

/-- The registrar main routine (the IIFE of the script): privilege check,
port choice (an explicit port of 0 is falsy in `if (appPort)` and falls
back to auto-detection), fragment write, syntax check with rollback on
failure, reload.  Any thrown error reaches the top-level handler, which
prints the message and exits 1. -/
def proxyMain (site : String) (portArg : Option Nat) (w : ProxyWorld) : ProxyResult :=
  if !w.isRoot then
    { files := w.dir
      exitCode := 1
      errMsg := some "Permission Denied: This script must be run as root (sudo) to write to /etc/nginx-rc/." }
  else
    let appPort := match portArg with
      | some p => if p == 0 then findNextPort w.dir else p
      | none => findNextPort w.dir
    let fileName := site ++ CONF_SUFFIX
    match w.dir with
    | none =>
      { files := none
        exitCode := 1
        errMsg := some "ENOENT: no such file or directory" }
    | some files =>
      let written := writeFileFs files fileName (nginxConfigContent appPort)
      match w.nginxTestErr with
      | some stderr =>
        { files := some (written.filter (fun f => f.1 != fileName))
          exitCode := 1
          errMsg := some ("Nginx Syntax Check Failed. Reverting changes. Details: " ++ stderr) }
      | none =>
        match w.reloadErr with
        | some e => { files := some written, exitCode := 1, errMsg := some e }
        | none => { files := some written, exitCode := 0, errMsg := none }

/-! ### Theorems -/

/-- Claim-side (spec-worded) tri-state boolean resolution: an explicit
CLI boolean wins; else a set environment variable resolves to `true`
exactly when it is the literal string "true"; else the built-in default. -/
def resolveBoolSpec (cli : Option Bool) (envVal : Option String) (dflt : Bool) : Bool :=
  match cli with
  | some b => b
  | none =>
    match envVal with
    | some s => s == "true"
    | none => dflt

/-- C5: for each of the four boolean toggles (install-hub, install-ssl,
unrestricted-php, redis-object-cache) and every combination of CLI value,
environment value and default, the resolved value follows the tri-state
rule: CLI boolean if present, else `env == "true"` if the variable is
set, else the built-in default. -/
theorem toggles_follow_tristate_resolution (argv : Argv) (env : Env) (genPass : String) :
    (resolveConfig argv env genPass).installHub
      = resolveBoolSpec argv.hub env.rcInstallHub DEFAULT_INSTALL_HUB ∧
    (resolveConfig argv env genPass).installSsl
      = resolveBoolSpec argv.ssl env.rcInstallSsl DEFAULT_INSTALL_SSL ∧
    (resolveConfig argv env genPass).unrestrictedPhp
      = resolveBoolSpec argv.unrestricted env.rcUnrestrictedPhp DEFAULT_UNRESTRICTED_PHP ∧
    resolveRedisObj argv env
      = resolveBoolSpec argv.redisObj env.rcHubRedisObj DEFAULT_REDIS_OBJ := by
  refine ⟨?_, ?_, ?_, ?_⟩
  · rcases h : argv.hub with _ | b <;> rcases h2 : env.rcInstallHub with _ | s <;>
      simp [resolveConfig, resolveInstallHub, resolveBoolSpec, h, h2]
  · rcases h : argv.ssl with _ | b <;> rcases h2 : env.rcInstallSsl with _ | s <;>
      simp [resolveConfig, resolveInstallSsl, resolveBoolSpec, h, h2]
  · rcases h : argv.unrestricted with _ | b <;> rcases h2 : env.rcUnrestrictedPhp with _ | s <;>
      simp [resolveConfig, resolveUnrestrictedPhp, resolveBoolSpec, h, h2]
  · rcases h : argv.redisObj with _ | b <;> rcases h2 : env.rcHubRedisObj with _ | s <;>
      simp [resolveRedisObj, resolveBoolSpec, DEFAULT_REDIS_OBJ, h, h2]
    by_cases hs : s = "" <;> simp [hs]

/-- C10: the resolved hub sub-configuration's `redisObject` flag is false
whenever the resolved hub type is not "redis", whatever the CLI flag and
environment variable say. -/
theorem redis_object_requires_redis_hub_type (argv : Argv) (env : Env) (genPass : String)
    (h : (resolveConfig argv env genPass).hub.type ≠ "redis") :
    (resolveConfig argv env genPass).hub.redisObject = false := by
  by_cases hr : jsSel argv.hubType (jsSel env.rcHubType DEFAULT_HUB_TYPE) = "redis"
  · exact absurd (by simp [resolveConfig, hr]) h
  · simp [resolveConfig, hr]

/-- Witness for C10 at a concrete configuration with hub type "native". -/
theorem redis_object_requires_redis_hub_type_witness :
    (resolveConfig
      { type := AppType.wordpress, domain := "example.com", app := "app",
        user := none, password := none, email := none, owner := none,
        php := "8.2", stack := "nginx", hub := none, hubType := some "native",
        redisObj := some true, ssl := none, unrestricted := none }
      { rcServerId := some "7", rcApiKey := some "k", rcDefaultUser := none,
        rcAdminEmail := none, rcAdminUser := none, rcAdminPassword := none,
        rcInstallHub := none, rcInstallSsl := none, rcUnrestrictedPhp := none,
        rcHubType := none, rcHubRedisObj := none }
      "pw").hub.redisObject = false :=
  redis_object_requires_redis_hub_type _ _ _ (by decide)

/-- Helper: under the missing-field conditions, `validate` reports an
error. -/
theorem validate_isSome_of_missing (c : Config)
    (h : jsFalsyStr c.apiKey = true ∨ jsFalsyStr c.serverId = true ∨
         (c.appType = AppType.custom ∧ c.ownerId = none)) :
    ∃ msg, validate c = some msg := by
  rcases h with h | h | ⟨h1, h2⟩
  · cases hS : jsFalsyStr c.serverId <;> simp [validate, h, hS]
  · cases hA : jsFalsyStr c.apiKey <;> simp [validate, h, hA]
  · cases hS : jsFalsyStr c.serverId <;> cases hA : jsFalsyStr c.apiKey <;>
      simp [validate, hS, hA, h1, h2, jsTruthyNat]

/-- C7: whenever the resolved API key or server identifier is missing
(unset or empty), or the application type is custom and no owner
identifier was resolved, the CLI prints an error message and exits with
status 1 having issued no request. -/
theorem missing_config_aborts_before_any_request
    (argv : Argv) (env : Env) (genPass : String) (gen : GenData) (o : Responses)
    (h : jsFalsyStr (resolveConfig argv env genPass).apiKey = true ∨
         jsFalsyStr (resolveConfig argv env genPass).serverId = true ∨
         ((resolveConfig argv env genPass).appType = AppType.custom ∧
          (resolveConfig argv env genPass).ownerId = none)) :
    (cliMain argv env genPass gen o).2 = 1 ∧
    requestsOf (cliMain argv env genPass gen o).1 = [] ∧
    ∃ msg, (cliMain argv env genPass gen o).1 = [Event.logError msg] := by
  obtain ⟨msg, hmsg⟩ := validate_isSome_of_missing _ h
  refine ⟨?_, ?_, msg, ?_⟩ <;> simp [cliMain, hmsg, requestsOf]

/-- Witness for C7: unset API key, everything else present. -/
theorem missing_config_aborts_before_any_request_witness :
    (cliMain
      { type := AppType.wordpress, domain := "example.com", app := "app",
        user := none, password := none, email := none, owner := none,
        php := "8.2", stack := "nginx", hub := none, hubType := none,
        redisObj := none, ssl := none, unrestricted := none }
      { rcServerId := some "7", rcApiKey := none, rcDefaultUser := none,
        rcAdminEmail := none, rcAdminUser := none, rcAdminPassword := none,
        rcInstallHub := none, rcInstallSsl := none, rcUnrestrictedPhp := none,
        rcHubType := none, rcHubRedisObj := none }
      "pw" { dbSuffix := "x", dbPass := "y" }
      { create := Except.ok 1, fpm := Except.ok (), hub := Except.ok (),
        domains := Except.ok { data := [] }, ssl := Except.ok () }).2 = 1 :=
  (missing_config_aborts_before_any_request _ _ _ _ _ (Or.inl (by decide))).1

/-- C6: whatever the random draws, the database password consists only of
alphanumeric characters, has length at least the base length 24, and ends
with the fixed suffix "1A". -/
theorem generateDbPass_charset_length_suffix (pick : Nat → Nat)
    (h : ∀ i, i < 24 → pick i < 62) :
    (∀ c ∈ (generateDbPass pick 24).toList, c.isAlphanum) ∧
    24 ≤ (generateDbPass pick 24).length ∧
    ∃ l, (generateDbPass pick 24).toList = l ++ ['1', 'A'] := by
  have hcharset : ∀ c ∈ DB_CHARSET, c.isAlphanum := by decide
  have hlen : DB_CHARSET.length = 62 := by decide
  have hdata : (generateDbPass pick 24).toList =
      ((List.range 24).map (fun i => DB_CHARSET.getD (pick i) ' ')) ++ ['1', 'A'] := by
    simp [generateDbPass, String.toList]
  refine ⟨?_, ?_, ⟨_, hdata⟩⟩
  · intro c hc
    rw [hdata] at hc
    rcases List.mem_append.mp hc with hc | hc
    · obtain ⟨i, hi, hgi⟩ := List.mem_map.mp hc
      have hilt : i < 24 := List.mem_range.mp hi
      have hpick : pick i < DB_CHARSET.length := hlen ▸ h i hilt
      rw [List.getD_eq_getElem _ _ hpick] at hgi
      exact hgi ▸ hcharset _ (List.getElem_mem hpick)
    · simp at hc
      rcases hc with rfl | rfl <;> decide
  · have : (generateDbPass pick 24).length = (generateDbPass pick 24).toList.length := rfl
    rw [this, hdata]
    simp

/-- Witness for C6: the constant draw 0 (all characters "a"). -/
theorem generateDbPass_charset_length_suffix_witness :
    (∀ c ∈ (generateDbPass (fun _ => 0) 24).toList, c.isAlphanum) ∧
    24 ≤ (generateDbPass (fun _ => 0) 24).length ∧
    ∃ l, (generateDbPass (fun _ => 0) 24).toList = l ++ ['1', 'A'] :=
  generateDbPass_charset_length_suffix (fun _ => 0) (by decide)

/-- Helper: the seed is bounded by the max-fold. -/
theorem seed_le_foldl_max (l : List Nat) : ∀ b : Nat, b ≤ l.foldl max b := by
  induction l with
  | nil => intro b; simp
  | cons x xs ih => intro b; exact le_trans (le_max_left b x) (ih (max b x))

/-- Helper: every member of a list is bounded by its max-fold. -/
theorem le_foldl_max (l : List Nat) : ∀ b : Nat, ∀ a ∈ l, a ≤ l.foldl max b := by
  induction l with
  | nil => intro b a ha; cases ha
  | cons x xs ih =>
    intro b a ha
    rcases List.mem_cons.mp ha with rfl | ha
    · exact le_trans (le_max_right b a) (seed_le_foldl_max xs (max b a))
    · exact ih (max b x) a ha

/-- Helper: the max-fold is bounded by any upper bound of the seed and
the elements. -/
theorem foldl_max_le (l : List Nat) (b c : Nat) (hb : b ≤ c)
    (h : ∀ a ∈ l, a ≤ c) : l.foldl max b ≤ c := by
  induction l generalizing b with
  | nil => exact hb
  | cons x xs ih =>
    exact ih (max b x) (max_le hb (h x (List.mem_cons_self x xs)))
      (fun a ha => h a (List.mem_cons_of_mem x ha))

/-- C8: next-port selection returns the base port 3000 when the directory
is absent or no matching file yields a `127.0.0.1:<digits>` match, and
otherwise one plus the maximum port extracted across the matching
files. -/
theorem findNextPort_base_or_max_plus_one (dir : Option (List (String × String))) :
    (dir = none → findNextPort dir = 3000) ∧
    (∀ files, dir = some files → usedPortsOf files = [] → findNextPort dir = 3000) ∧
    (∀ files p, dir = some files → p ∈ usedPortsOf files →
      (∀ q ∈ usedPortsOf files, q ≤ p) → findNextPort dir = p + 1) := by
  refine ⟨fun h => by simp [h, findNextPort, START_PORT], ?_, ?_⟩
  · intro files hdir hports
    subst hdir
    cases hc : (confFilesOf files).isEmpty <;>
      simp [findNextPort, hc, hports, START_PORT]
  · intro files p hdir hp hub
    subst hdir
    have hne : ¬(confFilesOf files).isEmpty := by
      intro hc
      rw [List.isEmpty_iff] at hc
      simp [usedPortsOf, hc] at hp
    have hmax : (usedPortsOf files).foldl max 0 = p := by
      refine le_antisymm (foldl_max_le _ _ _ (Nat.zero_le p) hub) (le_foldl_max _ _ p hp)
    cases hports : usedPortsOf files with
    | nil => simp [hports] at hp
    | cons q qs =>
      simp only [findNextPort, Bool.not_eq_true] at *
      rw [if_neg (by simpa using hne), hports]
      rw [hports] at hmax
      simp [hmax]

/-- Witness for C8: fragments embedding ports 3000 and 3002 yield 3003. -/
theorem findNextPort_base_or_max_plus_one_witness :
    findNextPort (some
      [("a.location.root.server.conf", "proxy_pass http://127.0.0.1:3000;"),
       ("b.location.root.server.conf", "proxy_pass http://127.0.0.1:3002;"),
       ("notes.txt", "proxy_pass http://127.0.0.1:9999;")]) = 3002 + 1 :=
  (findNextPort_base_or_max_plus_one _).2.2 _ 3002 rfl (by decide) (by decide)

/-- C9: when the registrar runs as root over an existing directory and
the syntax check fails, the just-written fragment no longer exists (and
no other file was touched), the failure message carries the diagnostic
output of the checker, and the process exits with a nonzero status. -/
theorem syntax_check_failure_rolls_back_fragment
    (site : String) (portArg : Option Nat) (w : ProxyWorld)
    (files : List (String × String)) (stderr : String)
    (hroot : w.isRoot = true) (hdir : w.dir = some files)
    (hfail : w.nginxTestErr = some stderr) :
    (proxyMain site portArg w).exitCode = 1 ∧
    (proxyMain site portArg w).files =
      some (files.filter (fun f => f.1 != site ++ CONF_SUFFIX)) ∧
    ∃ p, (proxyMain site portArg w).errMsg = some (p ++ stderr) := by
  refine ⟨?_, ?_, "Nginx Syntax Check Failed. Reverting changes. Details: ", ?_⟩ <;>
    simp [proxyMain, hroot, hdir, hfail, writeFileFs, List.filter_append]

/-- Exit status of the CLI for a validated configuration: the global
error trap turns an uncaught run failure into exit 1, success into 0. -/
def runExitCode (cfg : Config) (gen : GenData) (o : Responses) : Nat :=
  match (ProvisioningService.run cfg gen o).2 with
  | Except.ok _ => 0
  | Except.error _ => 1

/-- The creation predicate of claim C1: a POST aimed exactly at
`/servers/{server}/webapps`. -/
def isCreatePost (c : RunCloudClient) (r : Request) : Bool :=
  r.path == c.webappsPath && r.method == Method.post

/-- Helper: a longer string is never equal (as `==`) to a shorter one. -/
theorem beq_false_of_length_lt (a b : String) (h : a.length < b.length) :
    (b == a) = false := by
  simp only [beq_eq_false_iff_ne]
  intro hEq
  rw [hEq] at h
  exact lt_irrefl _ h

/-- Helper: the custom-app creation request satisfies `isCreatePost`. -/
theorem isCreatePost_custom (c : RunCloudClient) (p : CustomAppPayload) :
    isCreatePost c (c.createCustomWebAppReq p) = true := by
  simp [isCreatePost, RunCloudClient.createCustomWebAppReq]

/-- Helper: the WordPress creation request does not (longer path). -/
theorem isCreatePost_wordpress (c : RunCloudClient) (p : WpPayload) :
    isCreatePost c (c.createWordPressReq p) = false := by
  simp only [isCreatePost, RunCloudClient.createWordPressReq, Bool.and_eq_false_iff]
  left
  apply beq_false_of_length_lt
  have h1 : ("/wordpress" : String).length = 10 := rfl
  simp only [String.length_append, h1]
  omega

/-- Helper: the domain-list request does not (GET). -/
theorem isCreatePost_getDomains (c : RunCloudClient) (w : Nat) :
    isCreatePost c (c.getDomainsReq w) = false := by
  simp [isCreatePost, RunCloudClient.getDomainsReq]

/-- Helper: the certificate request does not (longer path). -/
theorem isCreatePost_installSsl (c : RunCloudClient) (w d : Nat) :
    isCreatePost c (c.installSslReq w d) = false := by
  simp only [isCreatePost, RunCloudClient.installSslReq, Bool.and_eq_false_iff]
  left
  apply beq_false_of_length_lt
  have h1 : ("/" : String).length = 1 := rfl
  have h2 : ("/domains/" : String).length = 9 := rfl
  have h3 : ("/ssl" : String).length = 4 := rfl
  simp only [String.length_append, h1, h2, h3]
  omega

/-- Helper: the hub-install request does not (longer path). -/
theorem isCreatePost_installHub (c : RunCloudClient) (w : Nat) (h : HubConfig) :
    isCreatePost c (c.installHubReq w h) = false := by
  simp only [isCreatePost, RunCloudClient.installHubReq, Bool.and_eq_false_iff]
  left
  apply beq_false_of_length_lt
  have h1 : ("/" : String).length = 1 := rfl
  have h2 : ("/runcloudhub" : String).length = 12 := rfl
  simp only [String.length_append, h1, h2]
  omega

/-- Helper: the settings-patch request does not (PATCH). -/
theorem isCreatePost_fpm (c : RunCloudClient) (w : Nat) (p : FpmPayload) :
    isCreatePost c (c.updateFpmSettingsReq w p) = false := by
  simp [isCreatePost, RunCloudClient.updateFpmSettingsReq]

/-- Helper: `requestsOf` distributes over append. -/
theorem requestsOf_append (a b : List Event) :
    requestsOf (a ++ b) = requestsOf a ++ requestsOf b := by
  simp [requestsOf]

/-- Helper: no request of the SSL step is a create-POST. -/
theorem no_create_in_sslEvents (client : RunCloudClient) (cfg : Config) (o : Responses) (w : Nat) :
    ∀ r ∈ requestsOf (installSslEvents client cfg o w), isCreatePost client r = false := by
  intro r hr
  unfold installSslEvents at hr
  rcases hdom : o.domains with e | dl
  · simp [hdom, requestsOf] at hr
    exact hr ▸ isCreatePost_getDomains client w
  · rcases hfind : dl.data.find? (fun d => d.name == cfg.domainName) with _ | dom
    · simp [hdom, hfind, requestsOf] at hr
      exact hr ▸ isCreatePost_getDomains client w
    · rcases hsslr : o.ssl with e | u <;>
        simp [hdom, hfind, hsslr, requestsOf] at hr <;>
        rcases hr with rfl | rfl <;>
        first
        | exact isCreatePost_getDomains client w
        | exact isCreatePost_installSsl client w dom.id

/-- C1: a successful custom-type run issues exactly one POST request to
`/servers/{server}/webapps` — the create-custom-app operation — whose
payload forces the stack identifier "customnginx", clears the
disabled-function list and enables URL-fopen, and the run adopts the
application identifier of the response. -/
theorem custom_app_single_create_post
    (cfg : Config) (gen : GenData) (o : Responses) (webAppId : Nat)
    (hcustom : cfg.appType = AppType.custom)
    (hok : o.create = Except.ok webAppId) :
    (requestsOf (ProvisioningService.run cfg gen o).1).filter (isCreatePost (clientOf cfg)) =
      [RunCloudClient.createCustomWebAppReq (clientOf cfg)
        { name := cfg.appName, domainName := cfg.domainName, user := cfg.ownerId,
          stack := "customnginx", disableFunctions := "", allowUrlFopen := true,
          phpVersion := cfg.phpVersion, stackMode := "production" }] ∧
    (ProvisioningService.run cfg gen o).2 = Except.ok webAppId := by
  constructor
  · cases hssl : cfg.installSsl <;>
      simp [ProvisioningService.run, hcustom, hok, hssl, requestsOf_append,
        List.filter_append, isCreatePost_custom, customPayloadOf, requestsOf]
    intro a x hx hmatch
    exact no_create_in_sslEvents (clientOf cfg) cfg o webAppId a
      (List.mem_filterMap.mpr ⟨x, hx, hmatch⟩)
  · simp [ProvisioningService.run, hcustom, hok]

/-- A sample custom-app configuration for concrete witnesses. -/
def sampleCustomConfig : Config :=
  { serverId := some "7", apiKey := some "k", appType := AppType.custom,
    domainName := "example.com", appName := "app", ownerId := some 5,
    adminEmail := "admin@example.com", adminUser := "admin", adminPassword := "pw",
    isAutoPassword := false, phpVersion := some "php82rc", stack := some "nativenginx",
    stackLabel := "nginx", installHub := false, installSsl := true,
    unrestrictedPhp := false, hub := { type := "native", redisObject := false } }

/-- A sample WordPress configuration for concrete witnesses. -/
def sampleWpConfig : Config :=
  { sampleCustomConfig with
    appType := AppType.wordpress
    installHub := true
    unrestrictedPhp := true }

/-- Sample generated database credentials for concrete witnesses. -/
def sampleGen : GenData := { dbSuffix := "s", dbPass := "p" }

/-- A sample all-successful response oracle for concrete witnesses. -/
def sampleResponses : Responses :=
  { create := Except.ok 42, fpm := Except.ok (), hub := Except.ok (),
    domains := Except.ok { data := [{ id := 9, name := "example.com" }] },
    ssl := Except.ok () }

/-- Witness for C1 at the sample custom configuration. -/
theorem custom_app_single_create_post_witness :
    (requestsOf (ProvisioningService.run sampleCustomConfig sampleGen sampleResponses).1).filter
        (isCreatePost (clientOf sampleCustomConfig)) =
      [RunCloudClient.createCustomWebAppReq (clientOf sampleCustomConfig)
        { name := sampleCustomConfig.appName, domainName := sampleCustomConfig.domainName,
          user := sampleCustomConfig.ownerId, stack := "customnginx", disableFunctions := "",
          allowUrlFopen := true, phpVersion := sampleCustomConfig.phpVersion,
          stackMode := "production" }] ∧
    (ProvisioningService.run sampleCustomConfig sampleGen sampleResponses).2 = Except.ok 42 :=
  custom_app_single_create_post sampleCustomConfig sampleGen sampleResponses 42 rfl rfl

/-- C2: for a WordPress configuration with the cache-plugin and
certificate toggles enabled, a successful creation call is followed by
exactly one 5-second delay, then one settings-patch call iff
PHP-unrestriction is enabled, then one cache-plugin-install call, then
one domain-list call, then one certificate request carrying the matched
domain record's identifier — exactly these requests, in exactly this
order. -/
theorem wordpress_run_call_order
    (cfg : Config) (gen : GenData) (o : Responses) (webAppId : Nat)
    (dl : DomainList) (dom : Domain)
    (hwp : cfg.appType = AppType.wordpress)
    (hhub : cfg.installHub = true)
    (hssl : cfg.installSsl = true)
    (hok : o.create = Except.ok webAppId)
    (hdl : o.domains = Except.ok dl)
    (hfind : dl.data.find? (fun d => d.name == cfg.domainName) = some dom) :
    reqSleepEvents (ProvisioningService.run cfg gen o).1 =
      [Event.request (RunCloudClient.createWordPressReq (clientOf cfg) (wpPayloadOf cfg gen)),
       Event.sleep 5000] ++
      (if cfg.unrestrictedPhp then
        [Event.request (RunCloudClient.updateFpmSettingsReq (clientOf cfg) webAppId
          { disableFunctions := "" })]
       else []) ++
      [Event.request (RunCloudClient.installHubReq (clientOf cfg) webAppId cfg.hub),
       Event.request (RunCloudClient.getDomainsReq (clientOf cfg) webAppId),
       Event.request (RunCloudClient.installSslReq (clientOf cfg) webAppId dom.id)] := by
  cases hphp : cfg.unrestrictedPhp <;>
  rcases hfpm : o.fpm with e1 | u1 <;> rcases hhubr : o.hub with e2 | u2 <;>
  rcases hsslr : o.ssl with e3 | u3 <;>
    simp [ProvisioningService.run, reqSleepEvents, hwp, hhub, hssl, hok, hdl, hfind,
      hphp, hfpm, hhubr, hsslr, unlockPhpFunctionsEvents, installHubEvents,
      installSslEvents]

/-- Witness for C2 at the sample WordPress configuration. -/
theorem wordpress_run_call_order_witness :
    reqSleepEvents (ProvisioningService.run sampleWpConfig sampleGen sampleResponses).1 =
      [Event.request (RunCloudClient.createWordPressReq (clientOf sampleWpConfig)
          (wpPayloadOf sampleWpConfig sampleGen)),
       Event.sleep 5000] ++
      (if sampleWpConfig.unrestrictedPhp then
        [Event.request (RunCloudClient.updateFpmSettingsReq (clientOf sampleWpConfig) 42
          { disableFunctions := "" })]
       else []) ++
      [Event.request (RunCloudClient.installHubReq (clientOf sampleWpConfig) 42 sampleWpConfig.hub),
       Event.request (RunCloudClient.getDomainsReq (clientOf sampleWpConfig) 42),
       Event.request (RunCloudClient.installSslReq (clientOf sampleWpConfig) 42 9)] :=
  wordpress_run_call_order sampleWpConfig sampleGen sampleResponses 42
    { data := [{ id := 9, name := "example.com" }] } { id := 9, name := "example.com" }
    rfl rfl rfl rfl rfl (by decide)

/-- C3: a failed creation call is the only fatal failure (the run stops
with exit status 1 after that single request, never reaching the final
summary); once creation succeeds the run always finishes with exit
status 0 and prints the final summary, every failing post-creation step
(settings patch, cache-plugin install, domain-list fetch, certificate
request) being caught inside that step and logged as a warning, with the
remaining enabled steps (certificate provisioning after a cache-plugin
failure) still executed. -/
theorem post_creation_failures_are_nonfatal
    (cfg : Config) (gen : GenData) (o : Responses) :
    (∀ e, o.create = Except.error e →
      (ProvisioningService.run cfg gen o).2 = Except.error e ∧
      runExitCode cfg gen o = 1 ∧
      (requestsOf (ProvisioningService.run cfg gen o).1).length = 1 ∧
      Event.finalSummary ∉ (ProvisioningService.run cfg gen o).1) ∧
    (∀ webAppId, o.create = Except.ok webAppId →
      (ProvisioningService.run cfg gen o).2 = Except.ok webAppId ∧
      runExitCode cfg gen o = 0 ∧
      Event.finalSummary ∈ (ProvisioningService.run cfg gen o).1) ∧
    (∀ webAppId e, o.create = Except.ok webAppId → cfg.appType = AppType.wordpress →
      cfg.unrestrictedPhp = true → o.fpm = Except.error e →
      Event.logWarn ("Failed to update FPM settings: " ++ e) ∈
        (ProvisioningService.run cfg gen o).1) ∧
    (∀ webAppId e, o.create = Except.ok webAppId → cfg.appType = AppType.wordpress →
      cfg.installHub = true → o.hub = Except.error e →
      Event.logWarn ("Hub Installation Failed: " ++ e) ∈
        (ProvisioningService.run cfg gen o).1) ∧
    (∀ webAppId e, o.create = Except.ok webAppId → cfg.installSsl = true →
      o.domains = Except.error e →
      Event.logWarn ("SSL Failed: " ++ e) ∈ (ProvisioningService.run cfg gen o).1) ∧
    (∀ webAppId e dl dom, o.create = Except.ok webAppId → cfg.installSsl = true →
      o.domains = Except.ok dl →
      dl.data.find? (fun d => d.name == cfg.domainName) = some dom →
      o.ssl = Except.error e →
      Event.logWarn ("SSL Failed: " ++ e) ∈ (ProvisioningService.run cfg gen o).1) ∧
    (∀ webAppId e, o.create = Except.ok webAppId → cfg.appType = AppType.wordpress →
      cfg.installHub = true → o.hub = Except.error e → cfg.installSsl = true →
      Event.request (RunCloudClient.getDomainsReq (clientOf cfg) webAppId) ∈
        (ProvisioningService.run cfg gen o).1) := by
  refine ⟨?_, ?_, ?_, ?_, ?_, ?_, ?_⟩
  · intro e he
    rcases happ : cfg.appType <;>
      simp [ProvisioningService.run, he, happ, runExitCode, requestsOf]
  · intro webAppId hok
    simp [ProvisioningService.run, hok, runExitCode]
  · intro webAppId e hok hwp hphp hfpm
    simp [ProvisioningService.run, hok, hwp, hphp, hfpm, unlockPhpFunctionsEvents]
  · intro webAppId e hok hwp hh hhubr
    simp [ProvisioningService.run, hok, hwp, hh, hhubr, installHubEvents]
  · intro webAppId e hok hssl hdom
    rcases happ : cfg.appType <;>
      simp [ProvisioningService.run, hok, hssl, happ, hdom, installSslEvents]
  · intro webAppId e dl dom hok hssl hdl hfind hsslr
    rcases happ : cfg.appType <;>
      simp [ProvisioningService.run, hok, hssl, happ, hdl, hfind, hsslr, installSslEvents]
  · intro webAppId e hok hwp hh hhubr hssl
    rcases hdom : o.domains with e2 | dl
    · simp [ProvisioningService.run, hok, hwp, hh, hhubr, hssl, hdom, installSslEvents]
    · rcases hfind : dl.data.find? (fun d => d.name == cfg.domainName) with _ | dom <;>
        simp [ProvisioningService.run, hok, hwp, hh, hhubr, hssl, hdom, hfind, installSslEvents]

/-- Response oracle whose cache-plugin-install call fails. -/
def sampleFailingHub : Responses :=
  { sampleResponses with hub := Except.error "boom" }

/-- Witness for C3: a failing hub call still yields exit 0, a warning,
and the certificate step's domain-list request. -/
theorem post_creation_failures_are_nonfatal_witness :
    runExitCode sampleWpConfig sampleGen sampleFailingHub = 0 ∧
    Event.logWarn ("Hub Installation Failed: " ++ "boom") ∈
      (ProvisioningService.run sampleWpConfig sampleGen sampleFailingHub).1 ∧
    Event.request (RunCloudClient.getDomainsReq (clientOf sampleWpConfig) 42) ∈
      (ProvisioningService.run sampleWpConfig sampleGen sampleFailingHub).1 :=
  ⟨((post_creation_failures_are_nonfatal sampleWpConfig sampleGen sampleFailingHub).2.1
      42 rfl).2.1,
   (post_creation_failures_are_nonfatal sampleWpConfig sampleGen sampleFailingHub).2.2.2.1
      42 "boom" rfl rfl rfl rfl,
   (post_creation_failures_are_nonfatal sampleWpConfig sampleGen sampleFailingHub).2.2.2.2.2.2
      42 "boom" rfl rfl rfl rfl rfl⟩

/-- C4: with the certificate toggle enabled and the domain list fetched,
the certificate-request endpoint is invoked iff the list contains a
record whose name equals the configured domain exactly
(case-sensitively); when it is, the single certificate request carries
the matched record's identifier; when no record matches, no certificate
request is issued, the miss is logged as a warning, and the run exits
with status 0. -/
theorem ssl_request_iff_exact_domain_match
    (cfg : Config) (gen : GenData) (o : Responses) (webAppId : Nat) (dl : DomainList)
    (hssl : cfg.installSsl = true)
    (hok : o.create = Except.ok webAppId)
    (hdl : o.domains = Except.ok dl) :
    ((∃ r ∈ requestsOf (ProvisioningService.run cfg gen o).1, isSslRequest r = true) ↔
      ∃ d ∈ dl.data, d.name = cfg.domainName) ∧
    (∀ dom, dl.data.find? (fun d => d.name == cfg.domainName) = some dom →
      (requestsOf (ProvisioningService.run cfg gen o).1).filter isSslRequest =
        [RunCloudClient.installSslReq (clientOf cfg) webAppId dom.id]) ∧
    (dl.data.find? (fun d => d.name == cfg.domainName) = none →
      (requestsOf (ProvisioningService.run cfg gen o).1).filter isSslRequest = [] ∧
      Event.logWarn "SSL Failed: Domain ID lookup failed." ∈
        (ProvisioningService.run cfg gen o).1 ∧
      runExitCode cfg gen o = 0) := by
  have hfilter : ∀ dom, dl.data.find? (fun d => d.name == cfg.domainName) = some dom →
      (requestsOf (ProvisioningService.run cfg gen o).1).filter isSslRequest =
        [RunCloudClient.installSslReq (clientOf cfg) webAppId dom.id] := by
    intro dom hfind
    rcases happ : cfg.appType <;> cases hphp : cfg.unrestrictedPhp <;>
      cases hh : cfg.installHub <;>
      rcases hfpm : o.fpm with e1 | u1 <;> rcases hhubr : o.hub with e2 | u2 <;>
      rcases hsslr : o.ssl with e3 | u3 <;>
      simp [ProvisioningService.run, happ, hphp, hh, hok, hssl, hdl, hfind, hfpm, hhubr,
        hsslr, unlockPhpFunctionsEvents, installHubEvents, installSslEvents, requestsOf,
        isSslRequest, RunCloudClient.createWordPressReq, RunCloudClient.createCustomWebAppReq,
        RunCloudClient.installHubReq, RunCloudClient.getDomainsReq,
        RunCloudClient.updateFpmSettingsReq, RunCloudClient.installSslReq]
  have hfilternil : dl.data.find? (fun d => d.name == cfg.domainName) = none →
      (requestsOf (ProvisioningService.run cfg gen o).1).filter isSslRequest = [] := by
    intro hfind
    rcases happ : cfg.appType <;> cases hphp : cfg.unrestrictedPhp <;>
      cases hh : cfg.installHub <;>
      rcases hfpm : o.fpm with e1 | u1 <;> rcases hhubr : o.hub with e2 | u2 <;>
      simp [ProvisioningService.run, happ, hphp, hh, hok, hssl, hdl, hfind, hfpm, hhubr,
        unlockPhpFunctionsEvents, installHubEvents, installSslEvents, requestsOf,
        isSslRequest, RunCloudClient.createWordPressReq, RunCloudClient.createCustomWebAppReq,
        RunCloudClient.installHubReq, RunCloudClient.getDomainsReq,
        RunCloudClient.updateFpmSettingsReq]
  refine ⟨?_, hfilter, fun hfind => ⟨hfilternil hfind, ?_, ?_⟩⟩
  · constructor
    · rintro ⟨r, hr, hsr⟩
      rcases hfind : dl.data.find? (fun d => d.name == cfg.domainName) with _ | dom
      · exfalso
        have hmem : r ∈ (requestsOf (ProvisioningService.run cfg gen o).1).filter isSslRequest :=
          List.mem_filter.mpr ⟨hr, hsr⟩
        rw [hfilternil hfind] at hmem
        cases hmem
      · exact ⟨dom, List.mem_of_find?_eq_some hfind, by simpa using List.find?_some hfind⟩
    · rintro ⟨d, hd, hname⟩
      have hsome : (dl.data.find? (fun x => x.name == cfg.domainName)).isSome := by
        rw [List.find?_isSome]
        exact ⟨d, hd, by simp [hname]⟩
      rcases hfind : dl.data.find? (fun x => x.name == cfg.domainName) with _ | dom
      · rw [hfind] at hsome
        cases hsome
      · have hmem : RunCloudClient.installSslReq (clientOf cfg) webAppId dom.id ∈
            (requestsOf (ProvisioningService.run cfg gen o).1).filter isSslRequest := by
          rw [hfilter dom hfind]
          exact List.mem_singleton.mpr rfl
        have h2 := List.mem_filter.mp hmem
        exact ⟨_, h2.1, h2.2⟩
  · rcases happ : cfg.appType <;>
      simp [ProvisioningService.run, happ, hok, hssl, hdl, hfind, installSslEvents]
  · simp [runExitCode, ProvisioningService.run, hok]

/-- Witness for C4: the sample domain list matches "example.com" with
identifier 9, so exactly one certificate request with identifier 9 is
issued. -/
theorem ssl_request_iff_exact_domain_match_witness :
    (requestsOf (ProvisioningService.run sampleCustomConfig sampleGen sampleResponses).1).filter
        isSslRequest =
      [RunCloudClient.installSslReq (clientOf sampleCustomConfig) 42 9] :=
  (ssl_request_iff_exact_domain_match sampleCustomConfig sampleGen sampleResponses 42
      { data := [{ id := 9, name := "example.com" }] } rfl rfl rfl).2.1
    { id := 9, name := "example.com" } (by decide)

/-- Sample registrar world whose syntax check fails. -/
def sampleFailWorld : ProxyWorld :=
  { isRoot := true
    dir := some [("other.location.root.server.conf", "proxy_pass http://127.0.0.1:3000;")]
    nginxTestErr := some "bad directive"
    reloadErr := none }

/-- Witness for C9 at the sample failing world. -/
theorem syntax_check_failure_rolls_back_fragment_witness :
    (proxyMain "myapp" none sampleFailWorld).exitCode = 1 ∧
    (proxyMain "myapp" none sampleFailWorld).files =
      some ([("other.location.root.server.conf", "proxy_pass http://127.0.0.1:3000;")].filter
        (fun f => f.1 != "myapp" ++ CONF_SUFFIX)) ∧
    ∃ p, (proxyMain "myapp" none sampleFailWorld).errMsg = some (p ++ "bad directive") :=
  syntax_check_failure_rolls_back_fragment "myapp" none sampleFailWorld
    [("other.location.root.server.conf", "proxy_pass http://127.0.0.1:3000;")]
    "bad directive" rfl rfl rfl
